import Mathlib

/-!
# ReactGoAPIFilters backend: pagination, filter normalisation and handlers

A shallow embedding of `backend/models/models.go` and
`backend/handlers/products.go`.

Conventions of the embedding

* Go `int` is the 64-bit two's-complement integer of the usual server targets
  (amd64 / arm64); `int64` is the same range and `int32` the 32-bit one.  A
  machine integer is an `Int` and every arithmetic operation of the source is
  followed by the wrap-around of its type (`wrapInt`, `toInt32`).
* `float64` prices are exact rationals (`Float64 := ℚ`): the source only
  compares them with `0`, overwrites them with `0` and copies them.
* `time.Now()` is an input of each handler, `log.Printf`, `time.Sleep` and the
  context deadlines have no effect on the values computed.
* A handler returns the HTTP response it writes with `c.JSON`, and
  `GetProducts` also the list of database calls it made, in order.
-/

namespace models

/-- Price type of the source (`float64`), taken as an exact rational. -/
abbrev Float64 := ℚ

/-- Instants returned by `time.Now()` and stored in rows. -/
abbrev Time := Int

/-- Largest value of Go `int` / `int64` on a 64-bit target. -/
def MaxInt64 : Int := 2 ^ 63 - 1

/-- Smallest value of Go `int` / `int64` on a 64-bit target. -/
def MinInt64 : Int := -(2 ^ 63)

/-- Largest value of `int32`. -/
def MaxInt32 : Int := 2 ^ 31 - 1

/-- Membership in the range of Go `int` (64 bits). -/
def IsInt (x : Int) : Prop := MinInt64 ≤ x ∧ x ≤ MaxInt64

instance (x : Int) : Decidable (IsInt x) := by
  unfold IsInt; exact inferInstance

/-- Two's-complement wrap-around of a mathematical integer into Go `int`. -/
def wrapInt (x : Int) : Int := (x + 2 ^ 63) % 2 ^ 64 - 2 ^ 63

/-- Conversion `int32(x)`: keeps the low 32 bits, read as a signed number. -/
def toInt32 (x : Int) : Int := (x + 2 ^ 31) % 2 ^ 32 - 2 ^ 31

/-- Go `a / b` on `int` for `b ≠ 0`: truncated quotient, wrapped. -/
def goDiv (a b : Int) : Int := wrapInt (Int.tdiv a b)

/-- Go `a % b` on `int` for `b ≠ 0`: remainder with the sign of `a`. -/
def goMod (a b : Int) : Int := wrapInt (Int.tmod a b)

/-- Struct `Product`. -/
structure Product where
  ID : String
  Name : String
  Category : String
  Price : Float64
  Description : Option String
  Stock : Int
  CreatedAt : Time
  UpdatedAt : Time
deriving DecidableEq

/-- Struct `ProductsResponse`. -/
structure ProductsResponse where
  Data : List Product
  Total : Int
  Page : Int
  PageSize : Int
  TotalPages : Int
deriving DecidableEq

/-- Struct `ProductFilters`; the `binding` tags of `Page` and `PageSize` are
interpreted by `handlers.ShouldBindQuery`. -/
structure ProductFilters where
  ProductName : String
  Category : String
  MinPrice : Float64
  MaxPrice : Float64
  Page : Int
  PageSize : Int
deriving DecidableEq

/-- Struct `HealthCheckResponse`. -/
structure HealthCheckResponse where
  Status : String
  Timestamp : Time
  Database : String
deriving DecidableEq

/-- Struct `ErrorResponse`. -/
structure ErrorResponse where
  Error : String
  Message : String
  Time : Time
deriving DecidableEq

/-- Struct `ProductStats`. -/
structure ProductStats where
  TotalProducts : Int
  TotalCategories : Int
  AveragePrice : Float64
  MinPrice : Float64
  MaxPrice : Float64
  TotalStock : Int
deriving DecidableEq

/-- Method `(*ProductFilters).SetDefaults`: five successive `if`s, each
overwriting one field. -/
def ProductFilters.SetDefaults (f : ProductFilters) : ProductFilters :=
  let f := if f.Page < 1 then { f with Page := 1 } else f
  let f := if f.PageSize < 1 then { f with PageSize := 10 } else f
  let f := if f.PageSize > 100 then { f with PageSize := 100 } else f
  let f := if f.MinPrice < 0 then { f with MinPrice := 0 } else f
  let f := if f.MaxPrice < 0 then { f with MaxPrice := 0 } else f
  f

/-- Method `(*ProductFilters).GetOffset`: `(f.Page - 1) * f.PageSize` in `int`. -/
def ProductFilters.GetOffset (f : ProductFilters) : Int :=
  wrapInt (wrapInt (f.Page - 1) * f.PageSize)

/-- Method `(*ProductFilters).GetLimit`. -/
def ProductFilters.GetLimit (f : ProductFilters) : Int :=
  f.PageSize

/-- Function `CalculateTotalPages(total int64, pageSize int) int`; `int(total)`
is the identity on a 64-bit target. -/
def CalculateTotalPages (total : Int) (pageSize : Int) : Int :=
  if pageSize = 0 then 0
  else
    let pages := goDiv total pageSize
    let pages := if goMod total pageSize > 0 then wrapInt (pages + 1) else pages
    pages

end models

namespace sqlc

open models

/-- Type `pgtype.Text` of a nullable text column: the handler reads `Valid`
and `String`. -/
structure Text where
  Valid : Bool
  String : String
deriving DecidableEq

/-- Type `pgtype.Timestamp`: the handler reads only `Time`. -/
structure Timestamp where
  Time : models.Time
  Valid : Bool
deriving DecidableEq

/-- Row type returned by the generated query `GetProducts` (package
`backend/db/sqlc`); its fields are the ones the handler reads. -/
structure Product where
  ID : String
  Name : String
  Category : String
  Price : Float64
  Description : Text
  Stock : Int
  CreatedAt : Timestamp
  UpdatedAt : Timestamp
deriving DecidableEq

/-- Type `sqlc.GetProductsParams`, as filled by the handler; `Limit` and
`Offset` are `int32`. -/
structure GetProductsParams where
  ProductName : String
  Category : String
  MinPrice : Float64
  MaxPrice : Float64
  Limit : Int
  Offset : Int
deriving DecidableEq

/-- Type `sqlc.CountProductsParams`, as filled by the handler. -/
structure CountProductsParams where
  ProductName : String
  Category : String
  MinPrice : Float64
  MaxPrice : Float64
deriving DecidableEq

/-- Dynamic value of a Go `interface{}` field: `nil`, a `float64`, an `int64`,
or a value of some other dynamic type (named by `typ`). -/
inductive Any where
  | nil
  | float64 (v : Float64)
  | int64 (v : Int)
  | other (typ : String)
deriving DecidableEq

/-- Row type returned by the generated query `GetProductStats`: two `int64`
counts and four aggregates of static type `interface{}`. -/
structure GetProductStatsRow where
  TotalProducts : Int
  TotalCategories : Int
  AveragePrice : Any
  MinPrice : Any
  MaxPrice : Any
  TotalStock : Any
deriving DecidableEq

/-- The two queries of `*sqlc.Queries` used by the product listing, as
functions of their parameters; an error carries the driver text. -/
structure Queries where
  GetProducts : GetProductsParams → Except String (List Product)
  CountProducts : CountProductsParams → Except String Int

/-- One database call made by a handler. -/
inductive Call where
  | getProducts (arg : GetProductsParams)
  | countProducts (arg : CountProductsParams)
deriving DecidableEq

end sqlc

namespace handlers

open models

/-- A query-string parameter as `gin` sees it: missing, present with a value
of the field type (an empty value of a numeric field is read as `0`), or
present with text that does not convert to the field type. -/
inductive Param (α : Type) where
  | absent
  | value (a : α)
  | malformed
deriving DecidableEq

/-- The query string of `GET /api/products`, by `form` tag. -/
structure Query where
  productName : Option String
  category : Option String
  minPrice : Param Float64
  maxPrice : Param Float64
  page : Param Int
  pageSize : Param Int
deriving DecidableEq

/-- Failure of `c.ShouldBindQuery`: a conversion error of the form mapping or
a failed validation tag. -/
inductive BindError where
  | convert (field : String)
  | validation (field : String) (tag : String)
deriving DecidableEq

/-- Text of `err.Error()` for a binding failure (wording abbreviated). -/
def BindError.Error : BindError → String
  | .convert field => "cannot convert " ++ field
  | .validation field tag => "Field validation for " ++ field ++ " failed on the " ++ tag ++ " tag"

/-- Form mapping of one string field: a missing parameter leaves the zero
value. -/
def bindString : Option String → Except BindError String
  | none => .ok ""
  | some s => .ok s

/-- Form mapping of one `float64` field. -/
def bindFloat (field : String) : Param Float64 → Except BindError Float64
  | .absent => .ok 0
  | .value x => .ok x
  | .malformed => .error (.convert field)

/-- Form mapping of one `int` field (`strconv.ParseInt` with 64 bits: a value
outside the range of `int` is a conversion error). -/
def bindInt (field : String) : Param Int → Except BindError Int
  | .absent => .ok 0
  | .value n => if IsInt n then .ok n else .error (.convert field)
  | .malformed => .error (.convert field)

/-- Validation of the `binding` tags of `ProductFilters`
(`Page: min=1`, `PageSize: min=1,max=100`).  The tags carry neither
`required` nor `omitempty`, so the validator applies them to the bound value,
the zero value of a missing parameter included. -/
def validate (f : ProductFilters) : Except BindError Unit :=
  if f.Page < 1 then .error (.validation "Page" "min")
  else if f.PageSize < 1 then .error (.validation "PageSize" "min")
  else if f.PageSize > 100 then .error (.validation "PageSize" "max")
  else .ok ()

/-- Call `c.ShouldBindQuery(&filters)` of `gin` on a `ProductFilters`: the
form mapping of the six fields, then the validation of the `binding` tags. -/
def ShouldBindQuery (c : Query) : Except BindError ProductFilters := do
  let productName ← bindString c.productName
  let category ← bindString c.category
  let minPrice ← bindFloat "minPrice" c.minPrice
  let maxPrice ← bindFloat "maxPrice" c.maxPrice
  let page ← bindInt "page" c.page
  let pageSize ← bindInt "pageSize" c.pageSize
  let filters : ProductFilters := ⟨productName, category, minPrice, maxPrice, page, pageSize⟩
  validate filters
  pure filters

/-- JSON document written by `c.JSON`, by the Go type that is marshalled. -/
inductive Body where
  | error (e : ErrorResponse)
  | products (r : ProductsResponse)
  | health (r : HealthCheckResponse)
  | stats (r : ProductStats)
deriving DecidableEq

/-- Value of the JSON key `database` of a body, when it has one: only
`HealthCheckResponse` declares it. -/
def Body.database : Body → Option String
  | .health r => some r.Database
  | _ => none

/-- Value of the JSON key `status` of a body, when it has one. -/
def Body.status : Body → Option String
  | .health r => some r.Status
  | _ => none

/-- HTTP response written by a handler: status code and JSON body. -/
structure Response where
  Status : Nat
  Body : Body
deriving DecidableEq

/-- Conversion of one row in the loop of `GetProducts`: `Description` is the
address of the column text when the column is valid and `nil` otherwise. -/
def toProduct (p : sqlc.Product) : models.Product :=
  let description : Option String := if p.Description.Valid then some p.Description.String else none
  { ID := p.ID
    Name := p.Name
    Category := p.Category
    Price := p.Price
    Description := description
    Stock := p.Stock
    CreatedAt := p.CreatedAt.Time
    UpdatedAt := p.UpdatedAt.Time }

/-- Handler `(*ProductHandler).GetProducts`: the response written and the
database calls made, in order. -/
def GetProducts (queries : sqlc.Queries) (now : Time) (c : Query) : Response × List sqlc.Call :=
  match ShouldBindQuery c with
  | .error err => (⟨400, .error ⟨"Parâmetros inválidos", err.Error, now⟩⟩, [])
  | .ok filters =>
    let filters := filters.SetDefaults
    let selectArg : sqlc.GetProductsParams :=
      { ProductName := filters.ProductName
        Category := filters.Category
        MinPrice := filters.MinPrice
        MaxPrice := filters.MaxPrice
        Limit := toInt32 filters.GetLimit
        Offset := toInt32 filters.GetOffset }
    match queries.GetProducts selectArg with
    | .error err =>
      (⟨500, .error ⟨"Erro ao buscar produtos", err, now⟩⟩, [.getProducts selectArg])
    | .ok products =>
      let countArg : sqlc.CountProductsParams :=
        { ProductName := filters.ProductName
          Category := filters.Category
          MinPrice := filters.MinPrice
          MaxPrice := filters.MaxPrice }
      match queries.CountProducts countArg with
      | .error err =>
        (⟨500, .error ⟨"Erro ao contar produtos", err, now⟩⟩,
          [.getProducts selectArg, .countProducts countArg])
      | .ok total =>
        let responseData := products.map toProduct
        let totalPages := CalculateTotalPages total filters.PageSize
        let response : ProductsResponse :=
          { Data := responseData
            Total := total
            Page := filters.Page
            PageSize := filters.PageSize
            TotalPages := totalPages }
        (⟨200, .products response⟩, [.getProducts selectArg, .countProducts countArg])

/-- Handler `(*ProductHandler).HealthCheck`; `ping` is the outcome of
`h.pool.Ping(ctx)`.  The source assigns `dbStatus = "disconnected"` on the
failure branch and returns before `dbStatus` is read. -/
def HealthCheck (ping : Except String Unit) (now : Time) : Response :=
  let dbStatus := "connected"
  match ping with
  | .error err =>
    let dbStatus := "disconnected"
    let _ := dbStatus
    ⟨503, .error ⟨"Banco de dados não disponível", err, now⟩⟩
  | .ok _ =>
    let response : HealthCheckResponse := ⟨"ok", now, dbStatus⟩
    ⟨200, .health response⟩

/-- Handler `(*ProductHandler).GetStats`; `result` is the outcome of
`h.queries.GetProductStats(ctx)`. -/
def GetStats (result : Except String sqlc.GetProductStatsRow) (now : Time) : Response :=
  match result with
  | .error err => ⟨500, .error ⟨"Erro ao buscar estatísticas", err, now⟩⟩
  | .ok stats =>
    let averagePrice : Float64 := match stats.AveragePrice with
      | .float64 val => val
      | _ => 0
    let minPrice : Float64 := match stats.MinPrice with
      | .float64 val => val
      | _ => 0
    let maxPrice : Float64 := match stats.MaxPrice with
      | .float64 val => val
      | _ => 0
    let totalStock : Int := match stats.TotalStock with
      | .int64 val => val
      | _ => 0
    let response : ProductStats :=
      { TotalProducts := stats.TotalProducts
        TotalCategories := stats.TotalCategories
        AveragePrice := averagePrice
        MinPrice := minPrice
        MaxPrice := maxPrice
        TotalStock := totalStock }
    ⟨200, .stats response⟩

end handlers

namespace handlers

open models

/-- Row number `i` of a sample table of books. -/
def bookRow (i : Nat) : sqlc.Product :=
  { ID := "id-" ++ toString i
    Name := "Book " ++ toString i
    Category := "Books"
    Price := 10
    Description := ⟨i % 2 == 0, "about book " ++ toString i⟩
    Stock := 3
    CreatedAt := ⟨100, true⟩
    UpdatedAt := ⟨200, true⟩ }

/-- Sample database of twelve books: the select query returns the rows from
`Offset` on, at most `Limit` of them, and the count query returns 12. -/
def booksQueries : sqlc.Queries :=
  { GetProducts := fun arg =>
      .ok ((((List.range 12).map bookRow).drop arg.Offset.toNat).take arg.Limit.toNat)
    CountProducts := fun _ => .ok 12 }

/-- Request `/api/products?category=Books&page=2&pageSize=5`. -/
def booksPageTwo : Query :=
  ⟨none, some "Books", .absent, .absent, .value 2, .value 5⟩

/-- Request `/api/products?page=21474838&pageSize=100`. -/
def farPage : Query :=
  ⟨none, none, .absent, .absent, .value 21474838, .value 100⟩

/-- Request `/api/products?minPrice=-5&page=1&pageSize=10`. -/
def minPriceNegative : Query :=
  ⟨none, none, .value (-5), .absent, .value 1, .value 10⟩

/-- Request `/api/products?minPrice=0&page=1&pageSize=10`. -/
def minPriceZero : Query :=
  ⟨none, none, .value 0, .absent, .value 1, .value 10⟩

end handlers

/-! ## Machine arithmetic -/

namespace models

theorem wrapInt_of_IsInt (x : Int) (h : IsInt x) : wrapInt x = x := by
  unfold IsInt MinInt64 MaxInt64 at h
  unfold wrapInt
  omega

theorem toInt32_of_range (x : Int) (h0 : -(2 ^ 31) ≤ x) (h1 : x ≤ MaxInt32) : toInt32 x = x := by
  unfold MaxInt32 at h1
  unfold toInt32
  omega

theorem goDiv_of_nonneg (a b : Int) (ha : 0 ≤ a) (ha1 : a ≤ MaxInt64) (hb : 1 ≤ b) :
    goDiv a b = a / b := by
  unfold goDiv
  rw [Int.tdiv_eq_ediv ha (by omega)]
  apply wrapInt_of_IsInt
  have h1 : 0 ≤ a / b := Int.ediv_nonneg ha (by omega)
  have h2 : a / b ≤ a := Int.ediv_le_self b ha
  unfold IsInt MinInt64
  omega

theorem goMod_of_nonneg (a b : Int) (ha : 0 ≤ a) (hb : 1 ≤ b) (hb1 : b ≤ MaxInt64) :
    goMod a b = a % b := by
  unfold goMod
  rw [Int.tmod_eq_emod ha (by omega)]
  apply wrapInt_of_IsInt
  have h1 : 0 ≤ a % b := Int.emod_nonneg a (by omega)
  have h2 : a % b < b := Int.emod_lt_of_pos a (by omega)
  unfold IsInt MinInt64
  omega

end models

/-! ## Pagination arithmetic -/

namespace models

/-- On a non-negative total and a positive page size no operation of
`CalculateTotalPages` wraps: the result is the quotient, plus one when the
remainder is positive. -/
theorem CalculateTotalPages_eq (total pageSize : Int) (h0 : 0 ≤ total) (h1 : total ≤ MaxInt64)
    (hp : 1 ≤ pageSize) (hp1 : pageSize ≤ MaxInt64) :
    CalculateTotalPages total pageSize =
      if total % pageSize > 0 then total / pageSize + 1 else total / pageSize := by
  unfold CalculateTotalPages
  rw [if_neg (by omega)]
  simp only [goDiv_of_nonneg total pageSize h0 h1 hp, goMod_of_nonneg total pageSize h0 hp hp1]
  split
  · rename_i hr
    apply wrapInt_of_IsInt
    have hq0 : 0 ≤ total / pageSize := Int.ediv_nonneg h0 (by omega)
    have hq1 : total / pageSize ≤ total := Int.ediv_le_self pageSize h0
    have hlt : total % pageSize < pageSize := Int.emod_lt_of_pos total (by omega)
    have hdecomp : pageSize * (total / pageSize) + total % pageSize = total :=
      Int.ediv_add_emod total pageSize
    have hne : total / pageSize + 1 ≤ total := by
      by_contra hcon
      have hq : total / pageSize = total := by omega
      rw [hq] at hdecomp
      have : pageSize * total ≥ 1 * total := Int.mul_le_mul_of_nonneg_right hp h0
      omega
    unfold IsInt MinInt64
    unfold MaxInt64 at h1 ⊢
    omega
  · rfl

/-- Bracketing of the page count: `(n - 1) * pageSize < total ≤ n * pageSize`
and `0 ≤ n` for `n = CalculateTotalPages total pageSize`. -/
theorem CalculateTotalPages_bracket (total pageSize : Int) (h0 : 0 ≤ total)
    (h1 : total ≤ MaxInt64) (hp : 1 ≤ pageSize) (hp1 : pageSize ≤ MaxInt64) :
    0 ≤ CalculateTotalPages total pageSize ∧
      (CalculateTotalPages total pageSize - 1) * pageSize < total ∧
      total ≤ CalculateTotalPages total pageSize * pageSize := by
  rw [CalculateTotalPages_eq total pageSize h0 h1 hp hp1]
  have hq0 : 0 ≤ total / pageSize := Int.ediv_nonneg h0 (by omega)
  have hr0 : 0 ≤ total % pageSize := Int.emod_nonneg total (by omega)
  have hlt : total % pageSize < pageSize := Int.emod_lt_of_pos total (by omega)
  have hdecomp : pageSize * (total / pageSize) + total % pageSize = total :=
    Int.ediv_add_emod total pageSize
  split
  · refine ⟨by omega, ?_, ?_⟩
    · have : (total / pageSize + 1 - 1) * pageSize = pageSize * (total / pageSize) := by ring
      rw [this]; omega
    · have : (total / pageSize + 1) * pageSize = pageSize * (total / pageSize) + pageSize := by ring
      rw [this]; omega
  · have hr : total % pageSize = 0 := by omega
    refine ⟨hq0, ?_, ?_⟩
    · have : (total / pageSize - 1) * pageSize = pageSize * (total / pageSize) - pageSize := by ring
      rw [this]; omega
    · have : total / pageSize * pageSize = pageSize * (total / pageSize) := by ring
      rw [this]; omega

/-- With a positive multiplier, `a * s < b * s` gives `a < b`. -/
theorem lt_of_mul_lt_mul_pos (a b s : Int) (hs : 0 < s) (h : a * s < b * s) : a < b :=
  lt_of_mul_lt_mul_right h (le_of_lt hs)

/-- C1: for every `total ≥ 0` and `pageSize ≥ 1` (in the ranges of `int64` and
`int`), `CalculateTotalPages total pageSize` is the ceiling of
`total / pageSize`, that is the least `n ≥ 0` with `n * pageSize ≥ total`; and
for every `total`, `CalculateTotalPages total 0 = 0`. -/
theorem CalculateTotalPages_is_ceil :
    (∀ total pageSize : Int, 0 ≤ total → total ≤ MaxInt64 → 1 ≤ pageSize → pageSize ≤ MaxInt64 →
      CalculateTotalPages total pageSize = ⌈(total : ℚ) / (pageSize : ℚ)⌉ ∧
      0 ≤ CalculateTotalPages total pageSize ∧
      CalculateTotalPages total pageSize * pageSize ≥ total ∧
      ∀ m : Int, 0 ≤ m → m * pageSize ≥ total → CalculateTotalPages total pageSize ≤ m) ∧
    (∀ total : Int, CalculateTotalPages total 0 = 0) := by
  refine ⟨?_, ?_⟩
  · intro total pageSize h0 h1 hp hp1
    obtain ⟨hn0, hlow, hup⟩ := CalculateTotalPages_bracket total pageSize h0 h1 hp hp1
    have hpos : (0 : ℚ) < (pageSize : ℚ) := by exact_mod_cast (by omega : (0 : Int) < pageSize)
    refine ⟨?_, hn0, hup, ?_⟩
    · symm
      rw [Int.ceil_eq_iff]
      constructor
      · rw [lt_div_iff₀ hpos]
        exact_mod_cast hlow
      · rw [div_le_iff₀ hpos]
        exact_mod_cast hup
    · intro m _ hm
      have hlt : (CalculateTotalPages total pageSize - 1) * pageSize < m * pageSize :=
        lt_of_lt_of_le hlow hm
      have := lt_of_mul_lt_mul_pos _ _ pageSize (by omega) hlt
      omega
  · intro total
    simp [CalculateTotalPages]

/-- Instance of C1 at `total = 12`, `pageSize = 5`, and at `pageSize = 0`. -/
theorem CalculateTotalPages_is_ceil_witness :
    CalculateTotalPages 12 5 = ⌈((12 : Int) : ℚ) / ((5 : Int) : ℚ)⌉ ∧
      CalculateTotalPages 12 5 = 3 ∧ CalculateTotalPages 12 0 = 0 :=
  ⟨(CalculateTotalPages_is_ceil.1 12 5 (by decide) (by decide) (by decide) (by decide)).1,
    by decide, CalculateTotalPages_is_ceil.2 12⟩

/-- C10: for `total ≥ 0` and a normalised filter set whose offset product does
not overflow, the offset lies before the end of the result set exactly when
the page is one of `1 .. totalPages`. -/
theorem GetOffset_lt_total_iff_page_le_totalPages (total : Int) (f : ProductFilters)
    (h0 : 0 ≤ total) (h1 : total ≤ MaxInt64)
    (hpage : 1 ≤ f.Page) (hsize : 1 ≤ f.PageSize) (hsize1 : f.PageSize ≤ 100)
    (hno : (f.Page - 1) * f.PageSize ≤ MaxInt64) :
    f.GetOffset < total ↔ f.Page ≤ CalculateTotalPages total f.PageSize := by
  have hS : f.PageSize ≤ MaxInt64 := by unfold MaxInt64; omega
  obtain ⟨_, hlow, hup⟩ := CalculateTotalPages_bracket total f.PageSize h0 h1 hsize hS
  have hle : f.Page - 1 ≤ (f.Page - 1) * f.PageSize := by
    have := Int.mul_le_mul_of_nonneg_left hsize (by omega : 0 ≤ f.Page - 1)
    simpa using this
  have hprod0 : 0 ≤ (f.Page - 1) * f.PageSize := Int.mul_nonneg (by omega) (by omega)
  have hoff : f.GetOffset = (f.Page - 1) * f.PageSize := by
    unfold ProductFilters.GetOffset
    rw [wrapInt_of_IsInt (f.Page - 1) (by unfold IsInt MinInt64; omega)]
    exact wrapInt_of_IsInt _ (by unfold IsInt MinInt64; omega)
  rw [hoff]
  constructor
  · intro h
    have := lt_of_mul_lt_mul_pos _ _ f.PageSize (by omega) (lt_of_lt_of_le h hup)
    omega
  · intro h
    have hmono : (f.Page - 1) * f.PageSize ≤
        (CalculateTotalPages total f.PageSize - 1) * f.PageSize :=
      Int.mul_le_mul_of_nonneg_right (by omega) (by omega)
    omega

/-- Instance of C10: with 12 rows and pages of 5, page 3 starts inside the
result set. -/
theorem GetOffset_lt_total_iff_page_le_totalPages_witness :
    (ProductFilters.GetOffset ⟨"", "", 0, 0, 3, 5⟩ < 12 ↔
      (3 : Int) ≤ CalculateTotalPages 12 5) ∧
    ProductFilters.GetOffset ⟨"", "", 0, 0, 3, 5⟩ = 10 :=
  ⟨GetOffset_lt_total_iff_page_le_totalPages 12 ⟨"", "", 0, 0, 3, 5⟩
    (by decide) (by decide) (by decide) (by decide) (by decide) (by decide), by decide⟩

end models

/-! ## Filter normalisation -/

namespace models

/-- Closed form of `SetDefaults`, field by field. -/
theorem SetDefaults_fields (f : ProductFilters) :
    f.SetDefaults =
      { ProductName := f.ProductName
        Category := f.Category
        MinPrice := if f.MinPrice < 0 then 0 else f.MinPrice
        MaxPrice := if f.MaxPrice < 0 then 0 else f.MaxPrice
        Page := if f.Page < 1 then 1 else f.Page
        PageSize := if f.PageSize < 1 then 10 else if f.PageSize > 100 then 100 else f.PageSize } := by
  obtain ⟨name, cat, lo, hi, page, size⟩ := f
  simp only [ProductFilters.SetDefaults]
  by_cases h1 : page < 1 <;> by_cases h2 : size < 1 <;> by_cases h3 : size > 100 <;>
    by_cases h4 : lo < 0 <;> by_cases h5 : hi < 0 <;> simp [h1, h2, h3, h4, h5]

/-- C2: after `SetDefaults`, `Page` is 1 when it was below 1 and unchanged
otherwise; `PageSize` is 10 when it was below 1, 100 when above 100 and
unchanged otherwise; a negative `MinPrice` / `MaxPrice` becomes 0 and any other
is unchanged.  In particular 250 becomes 100, page size 0 becomes 10, a page
of 0 or less becomes 1, and the result has `Page ≥ 1`, `1 ≤ PageSize ≤ 100`,
`MinPrice ≥ 0`, `MaxPrice ≥ 0`. -/
theorem SetDefaults_clamps (f : ProductFilters) :
    f.SetDefaults.Page = (if f.Page < 1 then 1 else f.Page) ∧
    f.SetDefaults.PageSize =
      (if f.PageSize < 1 then 10 else if f.PageSize > 100 then 100 else f.PageSize) ∧
    f.SetDefaults.MinPrice = (if f.MinPrice < 0 then 0 else f.MinPrice) ∧
    f.SetDefaults.MaxPrice = (if f.MaxPrice < 0 then 0 else f.MaxPrice) ∧
    (f.PageSize = 250 → f.SetDefaults.PageSize = 100) ∧
    (f.PageSize = 0 → f.SetDefaults.PageSize = 10) ∧
    (f.Page ≤ 0 → f.SetDefaults.Page = 1) ∧
    1 ≤ f.SetDefaults.Page ∧
    1 ≤ f.SetDefaults.PageSize ∧ f.SetDefaults.PageSize ≤ 100 ∧
    0 ≤ f.SetDefaults.MinPrice ∧ 0 ≤ f.SetDefaults.MaxPrice := by
  rw [SetDefaults_fields]
  refine ⟨rfl, rfl, rfl, rfl, ?_, ?_, ?_, ?_, ?_, ?_, ?_, ?_⟩
  · intro h; simp [h]
  · intro h; simp [h]
  · intro h; simp only; rw [if_pos (by omega)]
  · simp only; split <;> omega
  · simp only; split_ifs <;> omega
  · simp only; split_ifs <;> omega
  · simp only; split_ifs with h
    · exact le_refl _
    · exact not_lt.mp h
  · simp only; split_ifs with h
    · exact le_refl _
    · exact not_lt.mp h

/-- Instance of C2: page 0, page size 250 and prices -5 and -1. -/
theorem SetDefaults_clamps_witness :
    ProductFilters.SetDefaults ⟨"tv", "Books", -5, -1, 0, 250⟩ = ⟨"tv", "Books", 0, 0, 1, 100⟩ ∧
    (ProductFilters.SetDefaults ⟨"tv", "Books", -5, -1, 0, 250⟩).PageSize = 100 := by
  refine ⟨by simp [ProductFilters.SetDefaults],
    (SetDefaults_clamps ⟨"tv", "Books", -5, -1, 0, 250⟩).2.2.2.2.1 rfl⟩

/-- C9: `SetDefaults` is idempotent, never changes `ProductName` or
`Category`, and returns unchanged a filter set that already has `Page ≥ 1`,
`1 ≤ PageSize ≤ 100`, `MinPrice ≥ 0` and `MaxPrice ≥ 0`. -/
theorem SetDefaults_idempotent (f : ProductFilters) :
    f.SetDefaults.SetDefaults = f.SetDefaults ∧
    f.SetDefaults.ProductName = f.ProductName ∧
    f.SetDefaults.Category = f.Category ∧
    (1 ≤ f.Page → 1 ≤ f.PageSize → f.PageSize ≤ 100 → 0 ≤ f.MinPrice → 0 ≤ f.MaxPrice →
      f.SetDefaults = f) := by
  refine ⟨?_, ?_, ?_, ?_⟩
  · rw [SetDefaults_fields f.SetDefaults, SetDefaults_fields f]
    simp only
    congr 1
    · split_ifs <;> rfl
    · split_ifs <;> rfl
    · split_ifs <;> omega
    · split_ifs <;> omega
  · rw [SetDefaults_fields]
  · rw [SetDefaults_fields]
  · intro h1 h2 h3 h4 h5
    rw [SetDefaults_fields]
    obtain ⟨name, cat, lo, hi, page, size⟩ := f
    simp only at h1 h2 h3 h4 h5
    simp only [if_neg (not_lt.mpr h4), if_neg (not_lt.mpr h5), if_neg (not_lt.mpr h1),
      if_neg (not_lt.mpr h2), if_neg (not_lt.mpr h3)]

/-- Instance of C9 on a filter set that is already normalised and on one that
is not. -/
theorem SetDefaults_idempotent_witness :
    ProductFilters.SetDefaults ⟨"tv", "Books", 3, 9, 2, 5⟩ = ⟨"tv", "Books", 3, 9, 2, 5⟩ ∧
    (ProductFilters.SetDefaults (ProductFilters.SetDefaults ⟨"tv", "Books", -5, 9, -2, 500⟩)) =
      ProductFilters.SetDefaults ⟨"tv", "Books", -5, 9, -2, 500⟩ :=
  ⟨(SetDefaults_idempotent ⟨"tv", "Books", 3, 9, 2, 5⟩).2.2.2
      (by decide) (by decide) (by decide) (by norm_num) (by norm_num),
    (SetDefaults_idempotent ⟨"tv", "Books", -5, 9, -2, 500⟩).1⟩

end models

/-! ## Handlers -/

namespace handlers

open models

/-- Health check, C4 as amended: when the ping fails the handler answers 503
with an `ErrorResponse` (error text, the ping error as message, timestamp),
a body without a `database` key; when the ping succeeds it answers 200 with
status `ok` and database `connected`. -/
theorem HealthCheck_responses (now : Time) :
    (∀ err : String,
      HealthCheck (.error err) now = ⟨503, .error ⟨"Banco de dados não disponível", err, now⟩⟩ ∧
      (HealthCheck (.error err) now).Body.database = none) ∧
    (HealthCheck (.ok ()) now).Status = 200 ∧
    (HealthCheck (.ok ()) now).Body.status = some "ok" ∧
    (HealthCheck (.ok ()) now).Body.database = some "connected" ∧
    HealthCheck (.ok ()) now = ⟨200, .health ⟨"ok", now, "connected"⟩⟩ :=
  ⟨fun _ => ⟨rfl, rfl⟩, rfl, rfl, rfl, rfl⟩

/-- C4 as stated fails: on a failed ping the 503 body has no `database` key,
so it is not `disconnected`. -/
theorem HealthCheck_failure_has_no_database_field :
    ¬ ((HealthCheck (.error "connection refused") 0).Status = 503 ∧
      (HealthCheck (.error "connection refused") 0).Body.database = some "disconnected") := by
  intro h
  have hnone : (HealthCheck (.error "connection refused") 0).Body.database = none := rfl
  rw [hnone] at h
  exact absurd h.2 (by simp)

/-- C5: on a successful stats query the handler answers 200 with the two
counts unchanged, each price aggregate equal to its value when that is a
`float64` and 0 otherwise, and the stock total equal to its value when that is
an `int64` and 0 otherwise; with the four aggregates `nil` all four are 0. -/
theorem GetStats_defaults (stats : sqlc.GetProductStatsRow) (now : Time) :
    ∃ r : ProductStats, GetStats (.ok stats) now = ⟨200, .stats r⟩ ∧
      r.TotalProducts = stats.TotalProducts ∧
      r.TotalCategories = stats.TotalCategories ∧
      (∀ v, stats.AveragePrice = .float64 v → r.AveragePrice = v) ∧
      ((∀ v, stats.AveragePrice ≠ .float64 v) → r.AveragePrice = 0) ∧
      (∀ v, stats.MinPrice = .float64 v → r.MinPrice = v) ∧
      ((∀ v, stats.MinPrice ≠ .float64 v) → r.MinPrice = 0) ∧
      (∀ v, stats.MaxPrice = .float64 v → r.MaxPrice = v) ∧
      ((∀ v, stats.MaxPrice ≠ .float64 v) → r.MaxPrice = 0) ∧
      (∀ v, stats.TotalStock = .int64 v → r.TotalStock = v) ∧
      ((∀ v, stats.TotalStock ≠ .int64 v) → r.TotalStock = 0) ∧
      (stats.AveragePrice = .nil → stats.MinPrice = .nil → stats.MaxPrice = .nil →
        stats.TotalStock = .nil →
        r.AveragePrice = 0 ∧ r.MinPrice = 0 ∧ r.MaxPrice = 0 ∧ r.TotalStock = 0) := by
  obtain ⟨tp, tc, avg, lo, hi, stock⟩ := stats
  refine ⟨_, rfl, rfl, rfl, ?_, ?_, ?_, ?_, ?_, ?_, ?_, ?_, ?_⟩
  · intro v h; simp only at h; subst h; rfl
  · intro h; cases avg <;> first | rfl | exact absurd rfl (h _)
  · intro v h; simp only at h; subst h; rfl
  · intro h; cases lo <;> first | rfl | exact absurd rfl (h _)
  · intro v h; simp only at h; subst h; rfl
  · intro h; cases hi <;> first | rfl | exact absurd rfl (h _)
  · intro v h; simp only at h; subst h; rfl
  · intro h; cases stock <;> first | rfl | exact absurd rfl (h _)
  · intro h1 h2 h3 h4
    simp only at h1 h2 h3 h4
    subst h1 h2 h3 h4
    exact ⟨rfl, rfl, rfl, rfl⟩

/-- Instance of C5 on the row of an empty table (counts 0, aggregates `nil`). -/
theorem GetStats_defaults_witness :
    ∃ r : ProductStats, GetStats (.ok ⟨0, 0, .nil, .nil, .nil, .nil⟩) 7 = ⟨200, .stats r⟩ ∧
      r.AveragePrice = 0 ∧ r.MinPrice = 0 ∧ r.MaxPrice = 0 ∧ r.TotalStock = 0 := by
  obtain ⟨r, hr, _, _, _, _, _, _, _, _, _, _, hnil⟩ :=
    GetStats_defaults ⟨0, 0, .nil, .nil, .nil, .nil⟩ 7
  exact ⟨r, hr, hnil rfl rfl rfl rfl⟩

/-- The handler reads the request only through the outcome of
`ShouldBindQuery`: when the binding fails it answers 400 without any database
call. -/
theorem GetProducts_of_bind_error (queries : sqlc.Queries) (now : Time) (c : Query)
    (err : BindError) (h : ShouldBindQuery c = .error err) :
    GetProducts queries now c = (⟨400, .error ⟨"Parâmetros inválidos", err.Error, now⟩⟩, []) := by
  unfold GetProducts
  rw [h]

/-- Two requests whose bound filter sets agree after `SetDefaults` are
handled identically. -/
theorem GetProducts_congr (queries : sqlc.Queries) (now : Time) (c1 c2 : Query)
    (f1 f2 : ProductFilters) (h1 : ShouldBindQuery c1 = .ok f1) (h2 : ShouldBindQuery c2 = .ok f2)
    (h : f1.SetDefaults = f2.SetDefaults) :
    GetProducts queries now c1 = GetProducts queries now c2 := by
  unfold GetProducts
  rw [h1, h2]
  simp only [h]

/-- After a successful binding the first database call is the select query,
with the fields of the normalised filter set, `int32(GetLimit())` and
`int32(GetOffset())`. -/
theorem GetProducts_first_call (queries : sqlc.Queries) (now : Time) (c : Query)
    (f : ProductFilters) (h : ShouldBindQuery c = .ok f) :
    ∃ rest, (GetProducts queries now c).2 =
      .getProducts
        { ProductName := f.SetDefaults.ProductName
          Category := f.SetDefaults.Category
          MinPrice := f.SetDefaults.MinPrice
          MaxPrice := f.SetDefaults.MaxPrice
          Limit := toInt32 f.SetDefaults.GetLimit
          Offset := toInt32 f.SetDefaults.GetOffset } :: rest := by
  unfold GetProducts
  rw [h]
  simp only
  split
  · exact ⟨_, rfl⟩
  · split
    · exact ⟨_, rfl⟩
    · exact ⟨_, rfl⟩

/-- C3, the code at requests with out-of-range paging: a request without
`page` and `pageSize`, one with `page=0`, one with `page=-3` and one with
`pageSize=250` are each answered 400 by the `binding` tags, before
`SetDefaults` runs and without any database call. -/
theorem GetProducts_rejects_out_of_range_paging (queries : sqlc.Queries) (now : Time) :
    GetProducts queries now ⟨none, none, .absent, .absent, .absent, .absent⟩ =
      (⟨400, .error ⟨"Parâmetros inválidos", (BindError.validation "Page" "min").Error, now⟩⟩, []) ∧
    GetProducts queries now ⟨none, none, .absent, .absent, .value 0, .value 10⟩ =
      (⟨400, .error ⟨"Parâmetros inválidos", (BindError.validation "Page" "min").Error, now⟩⟩, []) ∧
    GetProducts queries now ⟨none, none, .absent, .absent, .value (-3), .value 10⟩ =
      (⟨400, .error ⟨"Parâmetros inválidos", (BindError.validation "Page" "min").Error, now⟩⟩, []) ∧
    GetProducts queries now ⟨none, none, .absent, .absent, .value 1, .value 0⟩ =
      (⟨400, .error ⟨"Parâmetros inválidos", (BindError.validation "PageSize" "min").Error, now⟩⟩,
        []) ∧
    GetProducts queries now ⟨none, none, .absent, .absent, .value 1, .value 250⟩ =
      (⟨400, .error ⟨"Parâmetros inválidos", (BindError.validation "PageSize" "max").Error, now⟩⟩,
        []) := by
  refine ⟨?_, ?_, ?_, ?_, ?_⟩ <;>
    exact GetProducts_of_bind_error queries now _ _ rfl

/-- C6: when the request binds and both database calls succeed, the handler
answers 200 with `page` and `pageSize` of the normalised filter set, `total`
the count, `totalPages = CalculateTotalPages total pageSize`, and `data` of
the length and order of the rows, each field copied and `description` absent
exactly when the column is not valid. -/
theorem GetProducts_ok_response (queries : sqlc.Queries) (now : Time) (c : Query)
    (f : ProductFilters) (rows : List sqlc.Product) (total : Int)
    (hbind : ShouldBindQuery c = .ok f)
    (hsel : queries.GetProducts
      { ProductName := f.SetDefaults.ProductName
        Category := f.SetDefaults.Category
        MinPrice := f.SetDefaults.MinPrice
        MaxPrice := f.SetDefaults.MaxPrice
        Limit := toInt32 f.SetDefaults.GetLimit
        Offset := toInt32 f.SetDefaults.GetOffset } = .ok rows)
    (hcnt : queries.CountProducts
      { ProductName := f.SetDefaults.ProductName
        Category := f.SetDefaults.Category
        MinPrice := f.SetDefaults.MinPrice
        MaxPrice := f.SetDefaults.MaxPrice } = .ok total) :
    ∃ r : ProductsResponse, (GetProducts queries now c).1 = ⟨200, .products r⟩ ∧
      r.Page = f.SetDefaults.Page ∧
      r.PageSize = f.SetDefaults.PageSize ∧
      r.Total = total ∧
      r.TotalPages = CalculateTotalPages total f.SetDefaults.PageSize ∧
      r.Data.length = rows.length ∧
      ∀ (i : Nat) (p : sqlc.Product), rows[i]? = some p →
        ∃ d : models.Product, r.Data[i]? = some d ∧
          d.ID = p.ID ∧ d.Name = p.Name ∧ d.Category = p.Category ∧ d.Price = p.Price ∧
          d.Stock = p.Stock ∧ d.CreatedAt = p.CreatedAt.Time ∧ d.UpdatedAt = p.UpdatedAt.Time ∧
          (d.Description = none ↔ p.Description.Valid = false) ∧
          (p.Description.Valid = true → d.Description = some p.Description.String) := by
  refine ⟨⟨rows.map toProduct, total, f.SetDefaults.Page, f.SetDefaults.PageSize,
    CalculateTotalPages total f.SetDefaults.PageSize⟩, ?_, rfl, rfl, rfl, rfl, ?_, ?_⟩
  · unfold GetProducts
    rw [hbind]
    simp only [hsel, hcnt]
  · simp
  · intro i p hp
    refine ⟨toProduct p, ?_, rfl, rfl, rfl, rfl, rfl, rfl, rfl, ?_, ?_⟩
    · simp [hp]
    · cases hv : p.Description.Valid <;> simp [toProduct, hv]
    · intro hv
      simp [toProduct, hv]

/-- The request `category=Books&page=2&pageSize=5` on twelve matching rows:
the select query gets limit 5 and offset 5, and the answer is 200 with
total 12, page 2, page size 5, 3 pages and 5 rows. -/
theorem GetProducts_ok_response_witness :
    (GetProducts booksQueries 0 booksPageTwo).2 =
      [.getProducts ⟨"", "Books", 0, 0, 5, 5⟩, .countProducts ⟨"", "Books", 0, 0⟩] ∧
    ∃ r : ProductsResponse, (GetProducts booksQueries 0 booksPageTwo).1 = ⟨200, .products r⟩ ∧
      r.Page = 2 ∧ r.PageSize = 5 ∧ r.Total = 12 ∧ r.TotalPages = 3 ∧ r.Data.length = 5 := by
  have hsd : ProductFilters.SetDefaults ⟨"", "Books", 0, 0, 2, 5⟩ = ⟨"", "Books", 0, 0, 2, 5⟩ := by
    simp [ProductFilters.SetDefaults]
  obtain ⟨r, hr, h1, h2, h3, h4, h5, _⟩ :=
    GetProducts_ok_response booksQueries 0 booksPageTwo ⟨"", "Books", 0, 0, 2, 5⟩
      (((List.range 12).map bookRow).drop 5 |>.take 5) 12 rfl (by rw [hsd]; rfl) rfl
  refine ⟨?_, r, hr, ?_, ?_, h3, ?_, ?_⟩
  · unfold GetProducts
    rw [show ShouldBindQuery booksPageTwo = .ok ⟨"", "Books", 0, 0, 2, 5⟩ from rfl]
    simp only [hsd]
    rfl
  · rw [h1, hsd]
  · rw [h2, hsd]
  · rw [h4, hsd]; decide
  · rw [h5]; rfl

/-- While `(Page - 1) * PageSize` fits `int32`, the limit and offset handed
to the select query are `PageSize` and `(Page - 1) * PageSize`. -/
theorem select_paging_exact_of_small (f : ProductFilters) (hpage : 1 ≤ f.Page)
    (hsize : 1 ≤ f.PageSize) (hsize1 : f.PageSize ≤ 100)
    (hsmall : (f.Page - 1) * f.PageSize ≤ MaxInt32) :
    toInt32 f.GetLimit = f.PageSize ∧ toInt32 f.GetOffset = (f.Page - 1) * f.PageSize ∧
      0 ≤ toInt32 f.GetOffset := by
  have hle : f.Page - 1 ≤ (f.Page - 1) * f.PageSize := by
    have := Int.mul_le_mul_of_nonneg_left hsize (by omega : 0 ≤ f.Page - 1)
    simpa using this
  have hprod0 : 0 ≤ (f.Page - 1) * f.PageSize := Int.mul_nonneg (by omega) (by omega)
  have h32 : MaxInt32 = 2147483647 := by decide
  have hoff : f.GetOffset = (f.Page - 1) * f.PageSize := by
    unfold ProductFilters.GetOffset
    rw [wrapInt_of_IsInt (f.Page - 1) (by unfold IsInt MinInt64 MaxInt64; omega)]
    exact wrapInt_of_IsInt _ (by unfold IsInt MinInt64 MaxInt64; omega)
  have hofs : toInt32 f.GetOffset = (f.Page - 1) * f.PageSize := by
    rw [hoff]
    exact toInt32_of_range _ (by omega) hsmall
  refine ⟨?_, hofs, by rw [hofs]; exact hprod0⟩
  unfold ProductFilters.GetLimit
  exact toInt32_of_range _ (by omega) (by omega)

/-- C7, the code at `page=21474838&pageSize=100`: the request binds to a
normalised filter set whose `(Page - 1) * PageSize` is 2147483700, and the
select query is handed limit 100 and offset -2147483596, the value of the
`int32` conversion at the call site. -/
theorem GetProducts_offset_wraps_int32 (queries : sqlc.Queries) (now : Time) :
    ShouldBindQuery farPage = .ok ⟨"", "", 0, 0, 21474838, 100⟩ ∧
    ((21474838 : Int) - 1) * 100 = 2147483700 ∧
    ∃ rest, (GetProducts queries now farPage).2 =
      .getProducts ⟨"", "", 0, 0, 100, -2147483596⟩ :: rest := by
  have hsd : ProductFilters.SetDefaults ⟨"", "", 0, 0, 21474838, 100⟩ =
      ⟨"", "", 0, 0, 21474838, 100⟩ := by
    simp [ProductFilters.SetDefaults]
  refine ⟨rfl, by decide, ?_⟩
  obtain ⟨rest, hrest⟩ := GetProducts_first_call queries now farPage _ rfl
  refine ⟨rest, ?_⟩
  rw [hrest, hsd]
  have hoff : toInt32 (ProductFilters.GetOffset ⟨"", "", 0, 0, 21474838, 100⟩) = -2147483596 := by
    decide
  have hlim : toInt32 (ProductFilters.GetLimit ⟨"", "", 0, 0, 21474838, 100⟩) = 100 := by
    decide
  rw [hoff, hlim]

/-- C8: two requests whose bound filter sets differ only in `MinPrice`, one
negative and the other 0, make the same database calls with the same
parameters (and get the same answer); and in every request the count query
receives the `ProductName`, `Category`, `MinPrice` and `MaxPrice` of the
select query. -/
theorem GetProducts_negative_minPrice_as_zero :
    (∀ (queries : sqlc.Queries) (now : Time) (c1 c2 : Query) (f : ProductFilters),
      ShouldBindQuery c1 = .ok f → f.MinPrice < 0 →
      ShouldBindQuery c2 = .ok { f with MinPrice := 0 } →
      GetProducts queries now c1 = GetProducts queries now c2 ∧
      ∃ sel rest, (GetProducts queries now c1).2 = .getProducts sel :: rest ∧
        (GetProducts queries now c2).2 = .getProducts sel :: rest ∧ sel.MinPrice = 0) ∧
    (∀ (queries : sqlc.Queries) (now : Time) (c : Query) (arg : sqlc.CountProductsParams),
      sqlc.Call.countProducts arg ∈ (GetProducts queries now c).2 →
      ∃ sel, (GetProducts queries now c).2 = [.getProducts sel, .countProducts arg] ∧
        arg.ProductName = sel.ProductName ∧ arg.Category = sel.Category ∧
        arg.MinPrice = sel.MinPrice ∧ arg.MaxPrice = sel.MaxPrice) := by
  constructor
  · intro queries now c1 c2 f h1 hneg h2
    have hsd : f.SetDefaults = ProductFilters.SetDefaults { f with MinPrice := 0 } := by
      rw [SetDefaults_fields f, SetDefaults_fields { f with MinPrice := 0 }]
      simp [hneg]
    have heq := GetProducts_congr queries now c1 c2 f _ h1 h2 hsd
    obtain ⟨rest, hrest⟩ := GetProducts_first_call queries now c1 f h1
    refine ⟨heq, _, rest, hrest, ?_, ?_⟩
    · rw [← heq]; exact hrest
    · simp only [SetDefaults_fields f, if_pos hneg]
  · intro queries now c arg hmem
    unfold GetProducts at hmem ⊢
    cases hb : ShouldBindQuery c with
    | error err => rw [hb] at hmem; simp at hmem
    | ok f =>
      rw [hb] at hmem
      simp only [hb] at hmem ⊢
      cases hs : queries.GetProducts
        { ProductName := f.SetDefaults.ProductName
          Category := f.SetDefaults.Category
          MinPrice := f.SetDefaults.MinPrice
          MaxPrice := f.SetDefaults.MaxPrice
          Limit := toInt32 f.SetDefaults.GetLimit
          Offset := toInt32 f.SetDefaults.GetOffset } with
      | error err => simp [hs] at hmem
      | ok rows =>
        simp only [hs] at hmem ⊢
        cases hc : queries.CountProducts
          { ProductName := f.SetDefaults.ProductName
            Category := f.SetDefaults.Category
            MinPrice := f.SetDefaults.MinPrice
            MaxPrice := f.SetDefaults.MaxPrice } with
        | error err =>
          simp only [hc] at hmem ⊢
          simp at hmem
          subst hmem
          exact ⟨_, rfl, rfl, rfl, rfl, rfl⟩
        | ok total =>
          simp only [hc] at hmem ⊢
          simp at hmem
          subst hmem
          exact ⟨_, rfl, rfl, rfl, rfl, rfl⟩

/-- Instance of C8: `minPrice=-5` and `minPrice=0` are handled identically on
the sample database, with `MinPrice = 0` in both queries. -/
theorem GetProducts_negative_minPrice_as_zero_witness :
    GetProducts booksQueries 0 minPriceNegative = GetProducts booksQueries 0 minPriceZero ∧
    (GetProducts booksQueries 0 minPriceNegative).2 =
      [.getProducts ⟨"", "", 0, 0, 10, 0⟩, .countProducts ⟨"", "", 0, 0⟩] := by
  refine ⟨(GetProducts_negative_minPrice_as_zero.1 booksQueries 0 minPriceNegative minPriceZero
    ⟨"", "", -5, 0, 1, 10⟩ rfl (by norm_num) rfl).1, ?_⟩
  have hsd : ProductFilters.SetDefaults ⟨"", "", -5, 0, 1, 10⟩ = ⟨"", "", 0, 0, 1, 10⟩ := by
    simp [ProductFilters.SetDefaults]
  unfold GetProducts
  rw [show ShouldBindQuery minPriceNegative = .ok ⟨"", "", -5, 0, 1, 10⟩ from rfl]
  simp only [hsd]
  rfl

end handlers
